import Mathlib

/-!
Verification of the risk-scoring engine of `pr-risk-bot` (`app/risk.py`).

The Python source is shallowly embedded below.  Strings are Lean `String`s
(ASCII fragment of Python `str`); `re` searches are modelled by executable
scanners over `List Char`; Python `dict` inputs become structures whose
numeric fields are `Option (Option Int)` (`none` = key absent,
`some none` = JSON null, `some (some n)` = the integer `n`); the single
accumulation loop of `compute_risk` is embedded as one named aggregate
definition per loop counter (each counter is accumulated independently of
the others in the source, so each becomes a `countP` / mapped sum over the
file list, and the signal list becomes the concatenation of the per-file
signal blocks in loop order).
-/

/-- Word character for the regex `\b` boundary (ASCII model of Python `\w`). -/
def wchar (c : Char) : Bool := c.isAlphanum || c = '_'

/-- Whitespace for the regex `\s` class (ASCII model). -/
def wsChar (c : Char) : Bool :=
  c = ' ' || c = '\t' || c = '\n' || c = '\r' || c = '\x0b' || c = '\x0c'

/-- Lower-case a character list (models `str.lower` / `(?i)` on ASCII). -/
def lowerList (l : List Char) : List Char := l.map Char.toLower

/-- The pattern `pat` occurs literally at index `i` of `hay`. -/
def sliceIs (hay : List Char) (i : Nat) (pat : List Char) : Bool :=
  (hay.drop i).take pat.length == pat

/-- Is the character at index `i` a word character (out of range counts as not). -/
def wAt (hay : List Char) (i : Nat) : Bool := wchar (hay.getD i ' ')

/-- Regex word boundary `\b` at position `i` (between index `i-1` and `i`). -/
def bAt (hay : List Char) (i : Nat) : Bool :=
  (if i = 0 then false else wAt hay (i - 1)) != wAt hay i

/-- One alternative of a `\b(...)\b` group matches at position `i`. -/
def wordMatchAt (hay pat : List Char) (i : Nat) : Bool :=
  sliceIs hay i pat && bAt hay i && bAt hay (i + pat.length)

/-- `re.search` of `\b pat \b` over `hay` (pattern is a literal). -/
def wordMatch (hay pat : List Char) : Bool :=
  (List.range (hay.length + 1)).any (wordMatchAt hay pat)

/-- Two literal chunks separated by exactly `g` whitespace characters, with
word boundaries at both outer ends: one witness of `\b a \s{g} b \b`. -/
def gapMatchAt (hay a b : List Char) (i g : Nat) : Bool :=
  sliceIs hay i a &&
  (List.range g).all (fun j => wsChar (hay.getD (i + a.length + j) 'x')) &&
  sliceIs hay (i + a.length + g) b &&
  bAt hay i && bAt hay (i + a.length + g + b.length)

/-- `re.search` of `\b a \s* b \b` (`minGap = 0`) or `\b a \s+ b \b` (`minGap = 1`). -/
def gapMatch (hay a b : List Char) (minGap : Nat) : Bool :=
  (List.range (hay.length + 1)).any fun i =>
    (List.range (hay.length + 1)).any fun g =>
      decide (minGap ≤ g) && gapMatchAt hay a b i g

/-- Python `pat in hay`: literal substring occurrence. -/
def containsSub (hay pat : List Char) : Bool :=
  (List.range (hay.length + 1)).any fun i => sliceIs hay i pat

/-- risk.py line 230: `(?i)\b(timeout|retry|backoff|circuit|rate\s*limit)\b`. -/
def resilienceHit (p : String) : Bool :=
  let l := lowerList p.data
  wordMatch l "timeout".data || wordMatch l "retry".data ||
  wordMatch l "backoff".data || wordMatch l "circuit".data ||
  gapMatch l "rate".data "limit".data 0

/-- risk.py line 233: `(?i)\b(permitAll|csrf\(\)\.disable|allowedOrigins|\*)\b`.
Note the trailing `\b` of the group applies to each alternative, so the bare
`*` alternative only matches between two word characters. -/
def securityHit (p : String) : Bool :=
  let l := lowerList p.data
  wordMatch l "permitall".data || wordMatch l "csrf().disable".data ||
  wordMatch l "allowedorigins".data || wordMatch l "*".data

/-- risk.py line 236: `(?i)\b(drop\s+table|truncate|delete\s+from|alter\s+table)\b`. -/
def destructiveSqlHit (p : String) : Bool :=
  let l := lowerList p.data
  gapMatch l "drop".data "table".data 1 || wordMatch l "truncate".data ||
  gapMatch l "delete".data "from".data 1 || gapMatch l "alter".data "table".data 1

/-- risk.py `_ext`: `re.search(r"(\.[A-Za-z0-9]+)$", path)`, lower-cased, else `""`. -/
def extOf (path : String) : String :=
  let rev := path.data.reverse
  let suf := rev.takeWhile Char.isAlphanum
  if suf.isEmpty then "" else
    match rev.drop suf.length with
    | '.' :: _ => String.mk (lowerList ('.' :: suf.reverse))
    | _ => ""

/-- risk.py `_top_level_dir`: `path.strip("/").split("/")`, first segment if
at least two segments, else `"(root)"`. -/
def top_level_dir (path : String) : String :=
  let stripped := String.mk
    (((path.data.dropWhile (· = '/')).reverse.dropWhile (· = '/')).reverse)
  let p := stripped.splitOn "/"
  if 2 ≤ p.length then p.headD "" else "(root)"

/-- risk.py `RISKY_PATH_PATTERNS` (each is `(?i)\b w \b`). -/
def RISKY_WORDS : List String :=
  ["auth", "security", "payment", "billing", "crypto", "permission", "admin"]

def CODE_EXTS : List String :=
  [".py", ".js", ".ts", ".java", ".kt", ".cs", ".go", ".rb", ".php"]

def CONFIG_EXTS : List String :=
  [".yml", ".yaml", ".json", ".toml", ".properties", ".ini"]

def MIGRATION_HINTS : List String :=
  ["migrations", "flyway", "liquibase", "alembic", "schema.sql"]

def API_CONTRACT_HINTS : List String :=
  ["openapi", "swagger", "proto", "graphql", "schema.graphql"]

/-- risk.py line 201: `re.search(r"(?i)\btest\b", path) or re.search(r"(?i)\bspec\b", path)`. -/
def isTestPath (path : String) : Bool :=
  wordMatch (lowerList path.data) "test".data ||
  wordMatch (lowerList path.data) "spec".data

/-- risk.py lines 223-226: any risky pattern matches (the `break` makes this
one increment per file at most). -/
def isRiskyPath (path : String) : Bool :=
  RISKY_WORDS.any fun w => wordMatch (lowerList path.data) w.data

/-- A changed-file record as consumed by `compute_risk`.  Numeric fields keep
the absent / null / integer distinction of the Python dict. -/
structure ChangedFile where
  filename : String
  status : String
  additions : Option (Option Int)
  deletions : Option (Option Int)
  patch : Option String
deriving DecidableEq

/-- Change metadata (the `pr` dict of `compute_risk`). -/
structure PRMeta where
  additions : Option (Option Int)
  deletions : Option (Option Int)
  changed_files : Option (Option Int)
deriving DecidableEq

/-- Python `int(d.get(k, 0) or 0)`: absent key, null and 0 all coerce to 0. -/
def numOr0 : Option (Option Int) → Int
  | some (some n) => n
  | _ => 0

/-- Python `int(pr.get("changed_files", len(files)) or len(files))`: an absent
key, a null value and an explicit 0 all fall back to the file-list length. -/
def changedFilesVal (v : Option (Option Int)) (flen : Int) : Int :=
  match v with
  | some (some n) => if n = 0 then flen else n
  | _ => flen

/-- risk.py line 208: `ext in CONFIG_EXTS or "config" in path.lower()`. -/
def isConfigFile (f : ChangedFile) : Bool :=
  CONFIG_EXTS.contains (extOf f.filename) ||
  containsSub (lowerList f.filename.data) "config".data

/-- risk.py line 204: `ext in CODE_EXTS`. -/
def isCodeFile (f : ChangedFile) : Bool := CODE_EXTS.contains (extOf f.filename)

/-- risk.py line 212: `ext == ".sql"`. -/
def isSqlFile (f : ChangedFile) : Bool := extOf f.filename == ".sql"

/-- risk.py lines 193-195: `patch = f.get("patch"); if not patch` (absent,
null or empty string all count as missing). -/
def patchMissingF (f : ChangedFile) : Bool :=
  match f.patch with
  | none => true
  | some p => p == ""

/-- risk.py line 229: `isinstance(patch, str) and patch` guards the scanners. -/
def resHitF (f : ChangedFile) : Bool :=
  match f.patch with
  | some p => !(p == "") && resilienceHit p
  | none => false

def secHitF (f : ChangedFile) : Bool :=
  match f.patch with
  | some p => !(p == "") && securityHit p
  | none => false

def sqlHitF (f : ChangedFile) : Bool :=
  match f.patch with
  | some p => !(p == "") && destructiveSqlHit p
  | none => false

/-- risk.py line 217: any migration hint is a substring of the lowered path. -/
def migHintF (f : ChangedFile) : Bool :=
  MIGRATION_HINTS.any fun h => containsSub (lowerList f.filename.data) h.data

/-- risk.py line 219: any API-contract hint is a substring of the lowered path. -/
def apiHintF (f : ChangedFile) : Bool :=
  API_CONTRACT_HINTS.any fun h => containsSub (lowerList f.filename.data) h.data

/-- Per-file `adds + dels` with the defensive coercion of lines 197-198. -/
def fileLoc (f : ChangedFile) : Int := numOr0 f.additions + numOr0 f.deletions

/-- risk.py line 241: `adds + dels > 250`. -/
def bigEditF (f : ChangedFile) : Bool := decide (250 < fileLoc f)

def resSig (f : ChangedFile) : String :=
  let path := f.filename
  s!"Changes resilience behavior hinted in {path} (timeouts/retries/rate limits)."

def secSig (f : ChangedFile) : String :=
  let path := f.filename
  s!"Potential security weakening patterns in {path}."

def sqlSig (f : ChangedFile) : String :=
  let path := f.filename
  s!"Potentially risky SQL pattern hinted in {path}."

def bigEditSig (f : ChangedFile) : String :=
  let path := f.filename
  let adds := numOr0 f.additions
  let dels := numOr0 f.deletions
  s!"Big edit in {path} ({adds}+/{dels}-)."

def removedSig (f : ChangedFile) : String :=
  let path := f.filename
  s!"File removed: {path}. Confirm no runtime dependency."

/-- Score contribution of one file inside the loop (lines 229-247):
patch-scanner deltas, the big-edit delta and the removed-file delta. -/
def fileScore (f : ChangedFile) : Nat :=
  (if resHitF f then 4 else 0) + (if secHitF f then 8 else 0) +
  (if sqlHitF f then 10 else 0) + (if bigEditF f then 6 else 0) +
  (if f.status == "removed" then 3 else 0)

/-- Signals appended for one file inside the loop, in source order
(resilience, security, destructive SQL, big edit, removed). -/
def fileSignals (f : ChangedFile) : List String :=
  (if resHitF f then [resSig f] else []) ++
  (if secHitF f then [secSig f] else []) ++
  (if sqlHitF f then [sqlSig f] else []) ++
  (if bigEditF f then [bigEditSig f] else []) ++
  (if f.status == "removed" then [removedSig f] else [])

/-- Initial confidence (`confidence = "High"`, line 59). -/
def confStart : String := "High"

/-- Line 61: `if loc > 1500 or changed_files > 60: confidence = "Medium"`. -/
def confStep1 (loc cf : Int) : String :=
  if 1500 < loc ∨ 60 < cf then "Medium" else confStart

/-- Line 63: `if loc > 4000 or changed_files > 120: confidence = "Low"`. -/
def confStep2 (loc cf : Int) : String :=
  if 4000 < loc ∨ 120 < cf then "Low" else confStep1 loc cf

/-- Line 67: tests untouched, sizeable diff, still High: downgrade to Medium. -/
def confStep3 (loc cf : Int) (tt : Nat) : String :=
  if tt = 0 ∧ 300 < loc ∧ confStep2 loc cf = "High" then "Medium"
  else confStep2 loc cf

/-- Line 69: tests untouched and `loc > 1500`: force Low. -/
def confStep4 (loc cf : Int) (tt : Nat) : String :=
  if tt = 0 ∧ 1500 < loc then "Low" else confStep3 loc cf tt

/-- Line 73: at least 10 missing patches and still High: downgrade to Medium. -/
def confStep5 (loc cf : Int) (tt pm : Nat) : String :=
  if 10 ≤ pm ∧ confStep4 loc cf tt = "High" then "Medium"
  else confStep4 loc cf tt

/-- Line 75: at least 30 missing patches: force Low. -/
def confStep6 (loc cf : Int) (tt pm : Nat) : String :=
  if 30 ≤ pm then "Low" else confStep5 loc cf tt pm

/-- risk.py `_compute_confidence` as the sequential reassignment chain above. -/
def compute_confidence (changed_files adds dels : Int) (tt pm : Nat) : String :=
  confStep6 (adds + dels) changed_files tt pm

/-- Numeric rank of a confidence string (used only in theorems). -/
def confRank (c : String) : Nat :=
  if c = "High" then 2 else if c = "Medium" then 1 else 0

/-- risk.py `_pick_risk_drivers.weight`: additive, case-insensitive substring
rules on the signal text itself. -/
def driverWeight (s : String) : Nat :=
  let sl := lowerList s.data
  (if containsSub sl "security".data || containsSub sl "auth".data then 100 else 0) +
  (if containsSub sl "sql".data || containsSub sl "migration".data ||
      containsSub sl "schema".data then 90 else 0) +
  (if containsSub sl "config".data then 70 else 0) +
  (if containsSub sl "no tests".data || containsSub sl "test".data then 65 else 0) +
  (if containsSub sl "large diff".data || containsSub sl "big edit".data then 50 else 0) +
  (if containsSub sl "touches many files".data then 40 else 0) +
  (if containsSub sl "removed".data then 25 else 0)

/-- Stable insertion step for a descending sort by `key`: the incoming element
(originally earlier in the list) stays before elements of equal key. -/
def insertByDesc {α : Type} (key : α → Nat) (x : α) : List α → List α
  | [] => [x]
  | y :: ys => if key y ≤ key x then x :: y :: ys else y :: insertByDesc key x ys

/-- Stable descending sort by `key`: models Python
`sorted(l, key=key, reverse=True)` (Timsort is stable; a stable sort under a
total key order is extensionally unique, so insertion sort realises it). -/
def ssortDesc {α : Type} (key : α → Nat) (l : List α) : List α :=
  l.foldr (insertByDesc key) []

/-- The dedup-and-cap loop of `_pick_risk_drivers` (lines 108-115): `rem` is
`max_items - len(out)`; the `break` fires as soon as `out` reaches the cap. -/
def pickLoop (seen : List String) : List String → Nat → List String
  | [], _ => []
  | s :: rest, rem =>
    if s ∈ seen then pickLoop seen rest rem
    else if rem ≤ 1 then [s]
    else s :: pickLoop (s :: seen) rest (rem - 1)

/-- risk.py `_pick_risk_drivers`. -/
def pick_risk_drivers (signals : List String) (max_items : Nat) : List String :=
  if signals.isEmpty then []
  else pickLoop [] (ssortDesc driverWeight signals) max_items

def reqTestsItem : String :=
  "Request tests or a justification (touched code without test changes)."

/-- risk.py `_review_focus_from_facts`. -/
def review_focus_from_facts (config_files sql_files tt risky_paths : Nat)
    (level : String) : List String :=
  let items :=
    (if 0 < risky_paths then
      ["Review auth/security/payment-related changes carefully (sensitive area touched)."]
     else []) ++
    (if 0 < sql_files then
      ["Verify migrations are reversible; check locks/indexes and rollout/rollback plan."]
     else []) ++
    (if 0 < config_files then
      ["Validate config defaults and environment overrides (staging vs prod)."]
     else []) ++
    (if tt = 0 then [reqTestsItem] else []) ++
    (if level = "MEDIUM" ∨ level = "HIGH" then
      ["Ask for monitoring/rollback notes for deploy (what to watch, how to revert)."]
     else []) ++
    (if level = "HIGH" then
      ["Consider splitting PR or requiring explicit sign-off (risk concentrated)."]
     else [])
  items.take 5

/-- risk.py `_operational_notes`. -/
def operational_notes (config_files sql_files : Nat) : List String :=
  (if sql_files = 0 then ["No DB migrations detected."] else []) ++
  (if config_files = 0 then ["No config changes detected."] else [])

/-- Insertion-ordered counter increment (Python `Counter[k] += 1`). -/
def bump (m : List (String × Nat)) (k : String) : List (String × Nat) :=
  if m.any (fun p => p.1 == k) then
    m.map (fun p => if p.1 == k then (p.1, p.2 + 1) else p)
  else m ++ [(k, 1)]

/-- Build a counter from a key sequence (keys in first-occurrence order). -/
def counterOf (keys : List String) : List (String × Nat) := keys.foldl bump []

/-- Python `Counter.most_common(k)`: stable descending sort by count (ties in
first-insertion order), truncated to `k`. -/
def mostCommon (k : Nat) (m : List (String × Nat)) : List (String × Nat) :=
  (ssortDesc (fun p => p.2) m).take k

/-- Models `int(round(n / 10.0))` of CPython on a non-negative integer `n`:
round half to even (exact, since all halves of tenths of integers are
representable in binary floating point). -/
def pyRound10 (n : Nat) : Nat :=
  if n % 10 < 5 then n / 10
  else if 5 < n % 10 then n / 10 + 1
  else if n / 10 % 2 = 0 then n / 10 else n / 10 + 1

/-- The immutable result record (risk.py `RiskResult`). -/
structure RiskResult where
  score_100 : Nat
  score_10 : Nat
  level : String
  confidence : String
  signals : List String
  impact_map : List String
  risk_drivers : List String
  review_focus : List String
  operational_notes : List String
  file_summary : String
  changed_files : Int
  additions : Int
  deletions : Int
  config_files : Nat
  sql_files : Nat
  test_touched : Nat
  risky_paths : Nat
deriving DecidableEq

/-- Diff-size score contribution (lines 151-157). -/
def diffScoreOf (pr : PRMeta) : Nat :=
  let loc := numOr0 pr.additions + numOr0 pr.deletions
  if 800 < loc then 30 else if 300 < loc then 18 else 0

def diffSigsOf (pr : PRMeta) : List String :=
  let additions := numOr0 pr.additions
  let deletions := numOr0 pr.deletions
  let loc := additions + deletions
  if 800 < loc then [s!"Large diff ({additions}+ / {deletions}-)."]
  else if 300 < loc then [s!"Medium diff size ({additions}+ / {deletions}-)."]
  else []

/-- Changed-file-count score contribution (lines 159-164). -/
def cfScoreOf (files : List ChangedFile) (pr : PRMeta) : Nat :=
  let cf := changedFilesVal pr.changed_files (files.length : Int)
  if 40 < cf then 20 else if 15 < cf then 10 else 0

def cfSigsOf (files : List ChangedFile) (pr : PRMeta) : List String :=
  let cf := changedFilesVal pr.changed_files (files.length : Int)
  if 40 < cf then [s!"Touches many files ({cf})."]
  else if 15 < cf then [s!"Touches multiple files ({cf})."]
  else []

/-- Rename count (line 166). -/
def renamesOf (files : List ChangedFile) : Nat :=
  files.countP (fun f => f.status == "renamed")

def renScoreOf (files : List ChangedFile) : Nat :=
  if 5 ≤ renamesOf files then 10 else 0

def renSigsOf (files : List ChangedFile) : List String :=
  let renames := renamesOf files
  if 5 ≤ renames then
    [s!"Multiple renames ({renames}). Review for missing references."]
  else []

/-- Loop counters (lines 171-226), one `countP` per independent accumulation. -/
def riskyPathsOf (files : List ChangedFile) : Nat :=
  files.countP (fun f => isRiskyPath f.filename)

def configFilesOf (files : List ChangedFile) : Nat := files.countP isConfigFile

def sqlFilesOf (files : List ChangedFile) : Nat := files.countP isSqlFile

def testTouchedOf (files : List ChangedFile) : Nat :=
  files.countP (fun f => isTestPath f.filename)

def coreCodeOf (files : List ChangedFile) : Nat := files.countP isCodeFile

def patchMissingOf (files : List ChangedFile) : Nat := files.countP patchMissingF

/-- Aggregate score contributions after the loop (lines 249-263). -/
def riskyScoreOf (files : List ChangedFile) : Nat :=
  if 0 < riskyPathsOf files then min 20 (6 + 2 * riskyPathsOf files) else 0

def riskySigsOf (files : List ChangedFile) : List String :=
  let risky_paths := riskyPathsOf files
  if 0 < risky_paths then [s!"Touches sensitive area paths (count={risky_paths})."]
  else []

def configScoreOf (files : List ChangedFile) : Nat :=
  if 0 < configFilesOf files then min 12 (4 + 2 * configFilesOf files) else 0

def configSigsOf (files : List ChangedFile) : List String :=
  let config_files := configFilesOf files
  if 0 < config_files then [s!"Config changes detected (count={config_files})."]
  else []

def sqlScoreOf (files : List ChangedFile) : Nat :=
  if 0 < sqlFilesOf files then min 18 (6 + 4 * sqlFilesOf files) else 0

def sqlSigsOf (files : List ChangedFile) : List String :=
  let sql_files := sqlFilesOf files
  if 0 < sql_files then [s!"SQL changes detected (count={sql_files})."]
  else []

def gapScoreOf (files : List ChangedFile) : Nat :=
  if 0 < coreCodeOf files ∧ testTouchedOf files = 0 then 18 else 0

def testGapSig : String :=
  "Touches code but no tests appear modified. Possible test gap."

def gapSigsOf (files : List ChangedFile) : List String :=
  if 0 < coreCodeOf files ∧ testTouchedOf files = 0 then [testGapSig] else []

/-- The whole unclamped score accumulation of `compute_risk` (lines 149-263);
all contributions are additive, so the source's sequential `score +=` sequence
is this sum. -/
def scoreRaw (files : List ChangedFile) (pr : PRMeta) : Nat :=
  diffScoreOf pr + cfScoreOf files pr + renScoreOf files +
  (files.map fileScore).sum + riskyScoreOf files + configScoreOf files +
  sqlScoreOf files + gapScoreOf files

/-- The raw signal list in emission order: per-PR signals, then the per-file
blocks in file order, then the aggregate signals. -/
def signalsOf (files : List ChangedFile) (pr : PRMeta) : List String :=
  diffSigsOf pr ++ cfSigsOf files pr ++ renSigsOf files ++
  (files.map fileSignals).flatten ++ riskySigsOf files ++ configSigsOf files ++
  sqlSigsOf files ++ gapSigsOf files

/-- The dedup loop of lines 292-297 (keep first occurrence). -/
def dedupAux (seen : List String) : List String → List String
  | [] => []
  | s :: rest =>
    if s ∈ seen then dedupAux seen rest else s :: dedupAux (s :: seen) rest

/-- Impact-map entries (lines 279-289). -/
def impactOf (files : List ChangedFile) : List String :=
  let top_dirs := counterOf (files.map (fun f => top_level_dir f.filename))
  (mostCommon 4 top_dirs).map (fun p =>
    let d := p.1
    let n := p.2
    s!"{d}/ (files: {n})") ++
  (if 0 < configFilesOf files then
    ["Config touched (env defaults/overrides may change)."] else []) ++
  (if 0 < sqlFilesOf files ∨ files.any migHintF then
    ["Database schema/migrations likely affected."] else []) ++
  (if files.any apiHintF then
    ["API contract files touched (OpenAPI/Proto/GraphQL)."] else []) ++
  (if 0 < riskyPathsOf files then
    ["Sensitive subsystem paths touched (auth/security/billing/etc)."] else [])

/-- File-summary line (lines 303-304). -/
def fileSummaryOf (files : List ChangedFile) (pr : PRMeta) : String :=
  let changed_files := changedFilesVal pr.changed_files (files.length : Int)
  let additions := numOr0 pr.additions
  let deletions := numOr0 pr.deletions
  let ext_counts := counterOf (files.map (fun f =>
    let e := extOf f.filename
    if e == "" then "(none)" else e))
  let top_exts := String.intercalate ", " ((mostCommon 8 ext_counts).map (fun p =>
    let k := p.1
    let v := p.2
    s!"{k}:{v}"))
  s!"{changed_files} files | {additions}+/{deletions}- | by extension: {top_exts}"

/-- risk.py `compute_risk` (lines 143-324). -/
def compute_risk (files : List ChangedFile) (pr : PRMeta) : RiskResult :=
  let additions := numOr0 pr.additions
  let deletions := numOr0 pr.deletions
  let changed_files := changedFilesVal pr.changed_files (files.length : Int)
  let score := min 100 (scoreRaw files pr)
  let score_10 := min 10 (pyRound10 score)
  let level := if 70 ≤ score then "HIGH" else if 40 ≤ score then "MEDIUM" else "LOW"
  let confidence :=
    compute_confidence changed_files additions deletions
      (testTouchedOf files) (patchMissingOf files)
  let uniq_signals := dedupAux [] (signalsOf files pr)
  let risk_drivers := pick_risk_drivers uniq_signals 6
  let review_focus :=
    review_focus_from_facts (configFilesOf files) (sqlFilesOf files)
      (testTouchedOf files) (riskyPathsOf files) level
  let op_notes := operational_notes (configFilesOf files) (sqlFilesOf files)
  { score_100 := score
    score_10 := score_10
    level := level
    confidence := confidence
    signals := uniq_signals
    impact_map := (impactOf files).take 8
    risk_drivers := risk_drivers
    review_focus := review_focus
    operational_notes := op_notes
    file_summary := fileSummaryOf files pr
    changed_files := changed_files
    additions := additions
    deletions := deletions
    config_files := configFilesOf files
    sql_files := sqlFilesOf files
    test_touched := testTouchedOf files
    risky_paths := riskyPathsOf files }

/-! ## Definitional projection lemmas -/

theorem compute_risk_score_100_def (files : List ChangedFile) (pr : PRMeta) :
    (compute_risk files pr).score_100 = min 100 (scoreRaw files pr) := rfl

theorem compute_risk_score_10_def (files : List ChangedFile) (pr : PRMeta) :
    (compute_risk files pr).score_10
      = min 10 (pyRound10 ((compute_risk files pr).score_100)) := rfl

theorem compute_risk_level_def (files : List ChangedFile) (pr : PRMeta) :
    (compute_risk files pr).level
      = if 70 ≤ (compute_risk files pr).score_100 then "HIGH"
        else if 40 ≤ (compute_risk files pr).score_100 then "MEDIUM" else "LOW" := rfl

theorem compute_risk_signals_def (files : List ChangedFile) (pr : PRMeta) :
    (compute_risk files pr).signals = dedupAux [] (signalsOf files pr) := rfl

theorem compute_risk_drivers_def (files : List ChangedFile) (pr : PRMeta) :
    (compute_risk files pr).risk_drivers
      = pick_risk_drivers (dedupAux [] (signalsOf files pr)) 6 := rfl

theorem compute_risk_review_focus_def (files : List ChangedFile) (pr : PRMeta) :
    (compute_risk files pr).review_focus
      = review_focus_from_facts (configFilesOf files) (sqlFilesOf files)
          (testTouchedOf files) (riskyPathsOf files)
          ((compute_risk files pr).level) := rfl

/-! ## Dedup loop lemmas -/

theorem mem_dedupAux (x : String) :
    ∀ (l seen : List String), x ∈ dedupAux seen l → x ∈ l ∧ x ∉ seen := by
  intro l
  induction l with
  | nil => intro seen h; cases h
  | cons s rest ih =>
    intro seen h
    by_cases hs : s ∈ seen
    · rw [dedupAux, if_pos hs] at h
      have := ih seen h
      exact ⟨List.mem_cons_of_mem _ this.1, this.2⟩
    · rw [dedupAux, if_neg hs] at h
      rcases List.mem_cons.1 h with rfl | h'
      · exact ⟨List.mem_cons_self _ _, hs⟩
      · have := ih (s :: seen) h'
        exact ⟨List.mem_cons_of_mem _ this.1,
          fun hx => this.2 (List.mem_cons_of_mem _ hx)⟩

theorem dedupAux_nodup : ∀ (l seen : List String), (dedupAux seen l).Nodup := by
  intro l
  induction l with
  | nil => intro seen; simp [dedupAux]
  | cons s rest ih =>
    intro seen
    by_cases hs : s ∈ seen
    · rw [dedupAux, if_pos hs]; exact ih seen
    · rw [dedupAux, if_neg hs]
      refine List.nodup_cons.2 ⟨?_, ih (s :: seen)⟩
      intro hmem
      exact (mem_dedupAux s rest (s :: seen) hmem).2 (List.mem_cons_self _ _)

/-! ## Stable descending sort lemmas -/

theorem insertByDesc_perm {α : Type} (key : α → Nat) (x : α) (l : List α) :
    (insertByDesc key x l).Perm (x :: l) := by
  induction l with
  | nil => exact List.Perm.refl _
  | cons y ys ih =>
    rw [insertByDesc]
    split
    · exact List.Perm.refl _
    · exact (ih.cons y).trans (List.Perm.swap x y ys)

theorem ssortDesc_perm {α : Type} (key : α → Nat) (l : List α) :
    (ssortDesc key l).Perm l := by
  induction l with
  | nil => exact List.Perm.refl _
  | cons a l ih =>
    show (insertByDesc key a (ssortDesc key l)).Perm (a :: l)
    exact (insertByDesc_perm key a _).trans (ih.cons a)

theorem insertByDesc_pairwise {α : Type} (key : α → Nat) (x : α) {l : List α}
    (h : l.Pairwise (fun a b => key b ≤ key a)) :
    (insertByDesc key x l).Pairwise (fun a b => key b ≤ key a) := by
  induction l with
  | nil => simp [insertByDesc]
  | cons y ys ih =>
    obtain ⟨hy, hys⟩ := List.pairwise_cons.1 h
    rw [insertByDesc]
    split
    case isTrue hxy =>
      refine List.pairwise_cons.2 ⟨?_, h⟩
      intro b hb
      rcases List.mem_cons.1 hb with rfl | hb'
      · exact hxy
      · exact le_trans (hy b hb') hxy
    case isFalse hxy =>
      refine List.pairwise_cons.2 ⟨?_, ih hys⟩
      intro b hb
      rcases List.mem_cons.1 ((insertByDesc_perm key x ys).mem_iff.1 hb) with rfl | hb'
      · exact le_of_lt (lt_of_not_le hxy)
      · exact hy b hb'

theorem ssortDesc_pairwise {α : Type} (key : α → Nat) (l : List α) :
    (ssortDesc key l).Pairwise (fun a b => key b ≤ key a) := by
  induction l with
  | nil => simp [ssortDesc]
  | cons a l ih => exact insertByDesc_pairwise key a ih

theorem insertByDesc_filter_pos {α : Type} (key : α → Nat) (w : Nat) (x : α)
    (l : List α) (hx : key x = w) :
    (insertByDesc key x l).filter (fun a => key a == w)
      = x :: l.filter (fun a => key a == w) := by
  induction l with
  | nil => simp [insertByDesc, List.filter_cons, hx]
  | cons y ys ih =>
    rw [insertByDesc]
    split
    case isTrue h => simp [List.filter_cons, hx]
    case isFalse h =>
      have hy : ¬ (key y = w) := by omega
      simp only [List.filter_cons, hy]
      simp only [show (key y == w) = false from beq_eq_false_iff_ne.2 hy]
      simpa using ih

theorem insertByDesc_filter_neg {α : Type} (key : α → Nat) (w : Nat) (x : α)
    (l : List α) (hx : ¬ (key x = w)) :
    (insertByDesc key x l).filter (fun a => key a == w)
      = l.filter (fun a => key a == w) := by
  induction l with
  | nil => simp [insertByDesc, List.filter_cons, hx]
  | cons y ys ih =>
    rw [insertByDesc]
    split
    case isTrue h => simp [List.filter_cons, hx]
    case isFalse h =>
      simp only [List.filter_cons]
      rw [ih]

theorem ssortDesc_filter {α : Type} (key : α → Nat) (w : Nat) (l : List α) :
    (ssortDesc key l).filter (fun a => key a == w)
      = l.filter (fun a => key a == w) := by
  induction l with
  | nil => rfl
  | cons a l ih =>
    show (insertByDesc key a (ssortDesc key l)).filter _ = _
    by_cases ha : key a = w
    · rw [insertByDesc_filter_pos key w a _ ha, ih]
      simp [List.filter_cons, ha]
    · rw [insertByDesc_filter_neg key w a _ ha, ih]
      simp [List.filter_cons, ha]

/-! ## Risk-driver selection loop lemmas -/

theorem pickLoop_eq_take :
    ∀ (l seen : List String) (rem : Nat), l.Nodup → (∀ x ∈ l, x ∉ seen) →
      1 ≤ rem → pickLoop seen l rem = l.take rem := by
  intro l
  induction l with
  | nil => intro seen rem _ _ _; simp [pickLoop]
  | cons s rest ih =>
    intro seen rem hnd hdisj hrem
    rw [pickLoop, if_neg (hdisj s (List.mem_cons_self _ _))]
    by_cases h1 : rem ≤ 1
    · have h : rem = 1 := le_antisymm h1 hrem
      subst h
      simp [List.take]
    · rw [if_neg h1]
      cases rem with
      | zero => omega
      | succ n =>
        have hn : 1 ≤ n := by omega
        have hd : ∀ x ∈ rest, x ∉ s :: seen := by
          intro x hx
          simp only [List.mem_cons, not_or]
          exact ⟨fun he => (List.nodup_cons.1 hnd).1 (he ▸ hx),
            hdisj x (List.mem_cons_of_mem _ hx)⟩
        simp only [Nat.add_sub_cancel]
        rw [ih (s :: seen) n (List.Nodup.of_cons hnd) hd hn]
        simp [List.take]

theorem pickLoop_subset :
    ∀ (l seen : List String) (rem : Nat) (x : String),
      x ∈ pickLoop seen l rem → x ∈ l := by
  intro l
  induction l with
  | nil => intro seen rem x h; rw [pickLoop] at h; cases h
  | cons s rest ih =>
    intro seen rem x h
    rw [pickLoop] at h
    split at h
    · exact List.mem_cons_of_mem _ (ih seen rem x h)
    · split at h
      · rcases List.mem_cons.1 h with rfl | h'
        · exact List.mem_cons_self _ _
        · cases h'
      · rcases List.mem_cons.1 h with rfl | h'
        · exact List.mem_cons_self _ _
        · exact List.mem_cons_of_mem _ (ih (s :: seen) (rem - 1) x h')

theorem pickLoop_length :
    ∀ (l seen : List String) (rem : Nat), 1 ≤ rem →
      (pickLoop seen l rem).length ≤ rem := by
  intro l
  induction l with
  | nil => intro seen rem _; simp [pickLoop]
  | cons s rest ih =>
    intro seen rem hrem
    rw [pickLoop]
    split
    · exact ih seen rem hrem
    · split
      case isTrue h1 => simpa using hrem
      case isFalse h1 =>
        have hn : 1 ≤ rem - 1 := by omega
        have := ih (s :: seen) (rem - 1) hn
        simp only [List.length_cons]
        omega

/-! ## Concrete inputs used by scenario theorems and witnesses -/

/-- The single file of the §8 scenario: `auth/login.py`, modified, no patch. -/
def c1File : ChangedFile := ⟨"auth/login.py", "modified", none, none, none⟩

/-- The metadata of the §8 scenario: 1000 additions, 0 deletions, 50 files. -/
def c1Meta : PRMeta := ⟨some (some 1000), some (some 0), some (some 50)⟩

/-- All-zero change metadata. -/
def prZero : PRMeta := ⟨some (some 0), some (some 0), some (some 0)⟩

/-- A code file whose patch contains a bare, whitespace-delimited `*` token. -/
def starFile : ChangedFile := ⟨"app.py", "modified", none, none, some "x = * ;"⟩

/-- A plain code file with no patch text. -/
def plainFile : ChangedFile := ⟨"app.py", "modified", none, none, none⟩

/-- Metadata whose `changed_files` entry is present but null. -/
def nullCfMeta : PRMeta := ⟨some (some 0), some (some 0), some none⟩

/-! ## Claim theorems -/

/-- C1: for 1000 additions, 0 deletions, 50 changed files and the single
modified file `auth/login.py` with no test files touched, `compute_risk`
returns `score100 = 76` (30 for the large diff, 20 for >40 files, 8 for one
risky path, 18 for code touched without tests), level HIGH, and confidence
Medium (downgraded once by the no-tests/large-diff rule, no further since 50
changed files is not more than 60). -/
theorem claim_c1_scenario :
    (compute_risk [c1File] c1Meta).score_100 = 76 ∧
    (compute_risk [c1File] c1Meta).level = "HIGH" ∧
    (compute_risk [c1File] c1Meta).confidence = "Medium" ∧
    diffScoreOf c1Meta = 30 ∧ cfScoreOf [c1File] c1Meta = 20 ∧
    riskyScoreOf [c1File] = 8 ∧ gapScoreOf [c1File] = 18 := by
  decide

/-- C3: the empty file list with all-zero metadata yields a well-formed
result: score 0, level LOW, confidence High, no risk drivers, and both
operational notes present. -/
theorem claim_c3_empty_input :
    (compute_risk [] prZero).score_100 = 0 ∧
    (compute_risk [] prZero).level = "LOW" ∧
    (compute_risk [] prZero).confidence = "High" ∧
    (compute_risk [] prZero).risk_drivers = [] ∧
    "No DB migrations detected." ∈ (compute_risk [] prZero).operational_notes ∧
    "No config changes detected." ∈ (compute_risk [] prZero).operational_notes := by
  decide

/-- The clamped CPython rounding of `n / 10` is the integer nearest `n / 10`,
with ties resolved to the even value (checked for every reachable score). -/
theorem pyRound10_char : ∀ n < 101,
    (min 10 (pyRound10 n)) * 10 ≤ n + 5 ∧ n ≤ (min 10 (pyRound10 n)) * 10 + 5 ∧
    (((min 10 (pyRound10 n)) * 10 = n + 5 ∨ n = (min 10 (pyRound10 n)) * 10 + 5) →
      (min 10 (pyRound10 n)) % 2 = 0) := by
  decide

/-- C2: for every input, `score100 ∈ [0,100]`, `score10 ∈ [0,10]` (both are
`Nat`, so the lower bounds are inherent), and `score10` is `score100 / 10`
rounded to the nearest integer — at the `.5` boundary to the even value, as
CPython's `round` does (so 75 rounds to 8 and 45 to 4) — clamped to range. -/
theorem claim_c2_score_bounds (files : List ChangedFile) (pr : PRMeta) :
    (compute_risk files pr).score_100 ≤ 100 ∧
    (compute_risk files pr).score_10 ≤ 10 ∧
    (compute_risk files pr).score_10 * 10 ≤ (compute_risk files pr).score_100 + 5 ∧
    (compute_risk files pr).score_100 ≤ (compute_risk files pr).score_10 * 10 + 5 ∧
    (((compute_risk files pr).score_10 * 10 = (compute_risk files pr).score_100 + 5 ∨
      (compute_risk files pr).score_100 = (compute_risk files pr).score_10 * 10 + 5) →
      (compute_risk files pr).score_10 % 2 = 0) := by
  have h100 := compute_risk_score_100_def files pr
  have h10 := compute_risk_score_10_def files pr
  have hb : (compute_risk files pr).score_100 < 101 := by
    rw [h100]; exact Nat.lt_succ_of_le (Nat.min_le_left _ _)
  obtain ⟨ha, hmid, hc⟩ := pyRound10_char _ hb
  refine ⟨by rw [h100]; exact Nat.min_le_left _ _,
          by rw [h10]; exact Nat.min_le_left _ _, ?_, ?_, ?_⟩
  · rw [h10]; exact ha
  · rw [h10]; exact hmid
  · rw [h10]; exact hc

/-- Witness for C2 at a concrete input. -/
theorem claim_c2_score_bounds_witness :
    (compute_risk [] prZero).score_100 ≤ 100 ∧
    (compute_risk [] prZero).score_10 ≤ 10 ∧
    (compute_risk [] prZero).score_10 * 10 ≤ (compute_risk [] prZero).score_100 + 5 ∧
    (compute_risk [] prZero).score_100 ≤ (compute_risk [] prZero).score_10 * 10 + 5 ∧
    (((compute_risk [] prZero).score_10 * 10 = (compute_risk [] prZero).score_100 + 5 ∨
      (compute_risk [] prZero).score_100 = (compute_risk [] prZero).score_10 * 10 + 5) →
      (compute_risk [] prZero).score_10 % 2 = 0) :=
  claim_c2_score_bounds [] prZero

/-- A rule that forces `"Low"` can only lower the rank. -/
theorem confRank_ite_low (c : Prop) [Decidable c] (s : String) :
    confRank (if c then "Low" else s) ≤ confRank s := by
  split
  · have h0 : confRank "Low" = 0 := rfl
    rw [h0]; exact Nat.zero_le _
  · exact le_refl _

/-- A rule that downgrades to `"Medium"` only when the current value is
`"High"` can only lower the rank. -/
theorem confRank_ite_med (c : Prop) [Decidable c] (s : String)
    (h : c → s = "High") :
    confRank (if c then "Medium" else s) ≤ confRank s := by
  by_cases hc : c
  · rw [if_pos hc, h hc]; decide
  · rw [if_neg hc]

/-- C4: the six confidence rules, evaluated in order starting from High,
form a non-increasing rank chain — no rule ever raises confidence after a
downgrade has fired — and `_compute_confidence` returns the final link. -/
theorem claim_c4_confidence_monotone (cf adds dels : Int) (tt pm : Nat) :
    confRank (confStep1 (adds + dels) cf) ≤ confRank confStart ∧
    confRank (confStep2 (adds + dels) cf) ≤ confRank (confStep1 (adds + dels) cf) ∧
    confRank (confStep3 (adds + dels) cf tt) ≤ confRank (confStep2 (adds + dels) cf) ∧
    confRank (confStep4 (adds + dels) cf tt) ≤ confRank (confStep3 (adds + dels) cf tt) ∧
    confRank (confStep5 (adds + dels) cf tt pm)
      ≤ confRank (confStep4 (adds + dels) cf tt) ∧
    confRank (confStep6 (adds + dels) cf tt pm)
      ≤ confRank (confStep5 (adds + dels) cf tt pm) ∧
    compute_confidence cf adds dels tt pm = confStep6 (adds + dels) cf tt pm := by
  refine ⟨?_, ?_, ?_, ?_, ?_, ?_, rfl⟩
  · unfold confStep1
    exact confRank_ite_med _ _ (fun _ => rfl)
  · unfold confStep2
    exact confRank_ite_low _ _
  · unfold confStep3
    exact confRank_ite_med _ _ (fun hc => hc.2.2)
  · unfold confStep4
    exact confRank_ite_low _ _
  · unfold confStep5
    exact confRank_ite_med _ _ (fun hc => hc.2)
  · unfold confStep6
    exact confRank_ite_low _ _

/-- C5: on a deduplicated signal list, the risk drivers are exactly the
first 6 entries of the stable descending sort by the additive substring
weights: the sort is weight-sorted (descending), is a permutation of the
input, and preserves the relative order of any fixed-weight class. -/
theorem claim_c5_driver_ranking (signals : List String) (w : Nat)
    (h : signals.Nodup) :
    pick_risk_drivers signals 6 = (ssortDesc driverWeight signals).take 6 ∧
    (ssortDesc driverWeight signals).Pairwise
      (fun a b => driverWeight b ≤ driverWeight a) ∧
    (ssortDesc driverWeight signals).Perm signals ∧
    (ssortDesc driverWeight signals).filter (fun s => driverWeight s == w)
      = signals.filter (fun s => driverWeight s == w) := by
  refine ⟨?_, ssortDesc_pairwise _ _, ssortDesc_perm _ _, ssortDesc_filter _ _ _⟩
  unfold pick_risk_drivers
  by_cases he : signals.isEmpty
  · rw [if_pos he]
    cases signals with
    | nil => rfl
    | cons a l => simp at he
  · rw [if_neg he]
    refine pickLoop_eq_take _ [] 6 ?_ ?_ (by omega)
    · exact ((ssortDesc_perm driverWeight signals).nodup_iff).2 h
    · intro x _ hx
      cases hx

/-- Witness for C5 at a concrete deduplicated list. -/
theorem claim_c5_driver_ranking_witness :
    (["alpha", "beta"] : List String).Nodup ∧
    (pick_risk_drivers ["alpha", "beta"] 6
        = (ssortDesc driverWeight ["alpha", "beta"]).take 6 ∧
     (ssortDesc driverWeight ["alpha", "beta"]).Pairwise
        (fun a b => driverWeight b ≤ driverWeight a) ∧
     (ssortDesc driverWeight ["alpha", "beta"]).Perm ["alpha", "beta"] ∧
     (ssortDesc driverWeight ["alpha", "beta"]).filter
        (fun s => driverWeight s == 0)
       = (["alpha", "beta"] : List String).filter (fun s => driverWeight s == 0)) :=
  ⟨by decide, claim_c5_driver_ranking ["alpha", "beta"] 0 (by decide)⟩

theorem operational_notes_len (c s : Nat) : (operational_notes c s).length ≤ 2 := by
  unfold operational_notes
  by_cases h1 : s = 0 <;> by_cases h2 : c = 0 <;> simp [h1, h2]

theorem review_focus_len (c s t r : Nat) (lv : String) :
    (review_focus_from_facts c s t r lv).length ≤ 5 := by
  unfold review_focus_from_facts
  exact List.length_take_le _ _

/-- C6: signals are duplicate-free, risk drivers are a subset of signals,
and every bounded list respects its hard cap (6 / 5 / 8 / 2). -/
theorem claim_c6_list_invariants (files : List ChangedFile) (pr : PRMeta) :
    (compute_risk files pr).signals.Nodup ∧
    (compute_risk files pr).risk_drivers ⊆ (compute_risk files pr).signals ∧
    (compute_risk files pr).risk_drivers.length ≤ 6 ∧
    (compute_risk files pr).review_focus.length ≤ 5 ∧
    (compute_risk files pr).impact_map.length ≤ 8 ∧
    (compute_risk files pr).operational_notes.length ≤ 2 := by
  refine ⟨?_, ?_, ?_, ?_, ?_, ?_⟩
  · rw [compute_risk_signals_def]
    exact dedupAux_nodup _ _
  · rw [compute_risk_signals_def, compute_risk_drivers_def]
    unfold pick_risk_drivers
    split
    · exact List.nil_subset _
    · intro x hx
      exact ((ssortDesc_perm driverWeight _).mem_iff).1 (pickLoop_subset _ _ _ _ hx)
  · rw [compute_risk_drivers_def]
    unfold pick_risk_drivers
    split
    · simp
    · exact pickLoop_length _ _ _ (by omega)
  · rw [compute_risk_review_focus_def]
    exact review_focus_len _ _ _ _ _
  · show ((impactOf files).take 8).length ≤ 8
    exact List.length_take_le _ _
  · show (operational_notes (configFilesOf files) (sqlFilesOf files)).length ≤ 2
    exact operational_notes_len _ _

/-- Witness for C6 at a concrete input. -/
theorem claim_c6_list_invariants_witness :
    (compute_risk [c1File] c1Meta).signals.Nodup ∧
    (compute_risk [c1File] c1Meta).risk_drivers ⊆ (compute_risk [c1File] c1Meta).signals ∧
    (compute_risk [c1File] c1Meta).risk_drivers.length ≤ 6 ∧
    (compute_risk [c1File] c1Meta).review_focus.length ≤ 5 ∧
    (compute_risk [c1File] c1Meta).impact_map.length ≤ 8 ∧
    (compute_risk [c1File] c1Meta).operational_notes.length ≤ 2 :=
  claim_c6_list_invariants [c1File] c1Meta

/-- The whole unclamped score is invariant under permuting the file list:
every contribution is a count, a mapped sum or a function of the length. -/
theorem scoreRaw_perm (files files' : List ChangedFile) (pr : PRMeta)
    (h : files.Perm files') : scoreRaw files pr = scoreRaw files' pr := by
  unfold scoreRaw cfScoreOf renScoreOf renamesOf riskyScoreOf riskyPathsOf
    configScoreOf configFilesOf sqlScoreOf sqlFilesOf gapScoreOf coreCodeOf
    testTouchedOf
  rw [h.length_eq, (h.map fileScore).sum_eq,
    h.countP_eq (fun f => f.status == "renamed"),
    h.countP_eq (fun f => isRiskyPath f.filename),
    h.countP_eq isConfigFile, h.countP_eq isSqlFile,
    h.countP_eq isCodeFile, h.countP_eq (fun f => isTestPath f.filename)]

/-- C9: permuting the file sequence (same metadata) leaves `score100`, and
hence `score10` and `level`, unchanged — all contributions are additive. -/
theorem claim_c9_order_invariant (files files' : List ChangedFile) (pr : PRMeta)
    (h : files.Perm files') :
    (compute_risk files pr).score_100 = (compute_risk files' pr).score_100 ∧
    (compute_risk files pr).score_10 = (compute_risk files' pr).score_10 ∧
    (compute_risk files pr).level = (compute_risk files' pr).level := by
  have hraw := scoreRaw_perm files files' pr h
  have h100 : (compute_risk files pr).score_100
      = (compute_risk files' pr).score_100 := by
    rw [compute_risk_score_100_def, compute_risk_score_100_def, hraw]
  refine ⟨h100, ?_, ?_⟩
  · rw [compute_risk_score_10_def, compute_risk_score_10_def, h100]
  · rw [compute_risk_level_def, compute_risk_level_def, h100]

/-- Witness for C9: two files swapped. -/
theorem claim_c9_order_invariant_witness :
    (compute_risk [plainFile, starFile] prZero).score_100
      = (compute_risk [starFile, plainFile] prZero).score_100 ∧
    (compute_risk [plainFile, starFile] prZero).score_10
      = (compute_risk [starFile, plainFile] prZero).score_10 ∧
    (compute_risk [plainFile, starFile] prZero).level
      = (compute_risk [starFile, plainFile] prZero).level :=
  claim_c9_order_invariant _ _ prZero (List.Perm.swap starFile plainFile [])

theorem mem_take_five_middle (A B C D E : List String) (x : String)
    (hA : A.length ≤ 1) (hB : B.length ≤ 1) (hC : C.length ≤ 1) :
    x ∈ (A ++ B ++ C ++ [x] ++ D ++ E).take 5 := by
  have hassoc : A ++ B ++ C ++ [x] ++ D ++ E
      = (A ++ B ++ C ++ [x]) ++ (D ++ E) := by
    simp [List.append_assoc]
  rw [hassoc, List.take_append_eq_append_take,
    List.take_of_length_le (by simp [List.length_append]; omega)]
  exact List.mem_append_left _ (List.mem_append_right _ (List.mem_singleton_self x))

theorem reqTests_mem_review_focus (c s r : Nat) (lv : String) :
    reqTestsItem ∈ review_focus_from_facts c s 0 r lv := by
  unfold review_focus_from_facts
  apply mem_take_five_middle <;> (split <;> simp)

/-- C10: whenever no test file is touched — in particular for the empty
input — the request-tests checklist entry is in `reviewFocus` (it does not
require any code file to be present), so the result's `reviewFocus` is
non-empty. -/
theorem claim_c10_request_tests (files : List ChangedFile) (pr : PRMeta)
    (h : testTouchedOf files = 0) :
    reqTestsItem ∈ (compute_risk files pr).review_focus ∧
    (compute_risk files pr).review_focus ≠ [] := by
  have hmem : reqTestsItem ∈ (compute_risk files pr).review_focus := by
    rw [compute_risk_review_focus_def, h]
    exact reqTests_mem_review_focus _ _ _ _
  exact ⟨hmem, List.ne_nil_of_mem hmem⟩

/-- Witness for C10 at the empty input. -/
theorem claim_c10_request_tests_witness :
    testTouchedOf [] = 0 ∧
    (reqTestsItem ∈ (compute_risk [] prZero).review_focus ∧
     (compute_risk [] prZero).review_focus ≠ []) :=
  ⟨by decide, claim_c10_request_tests [] prZero (by decide)⟩

/-- C7 counterexample: the patch `"x = * ;"` contains a bare,
whitespace-delimited `*` token, yet `compute_risk` emits no
security-weakening signal for the file and the score carries no `+8`
(18 is exactly the code-without-tests contribution). -/
theorem claim_c7_counterexample :
    containsSub "x = * ;".data " * ".data = true ∧
    (compute_risk [starFile] prZero).signals = [testGapSig] ∧
    secSig starFile ∉ (compute_risk [starFile] prZero).signals ∧
    (compute_risk [starFile] prZero).score_100 = 18 := by
  decide

/-- What the `\b\*\b` alternative of the security regex actually requires:
a `*` with a word character immediately on each side. -/
def adjacentStar (p : String) : Bool := wordMatch (lowerList p.data) "*".data

/-- The non-security part of the per-file signal block (before the security
signal in emission order). -/
def fileSignalsPre (f : ChangedFile) : List String :=
  if resHitF f then [resSig f] else []

/-- The non-security part of the per-file signal block (after the security
signal in emission order). -/
def fileSignalsPost (f : ChangedFile) : List String :=
  (if sqlHitF f then [sqlSig f] else []) ++
  (if bigEditF f then [bigEditSig f] else []) ++
  (if f.status == "removed" then [removedSig f] else [])

/-- The per-file score with the security-weakening term removed. -/
def fileScoreRest (f : ChangedFile) : Nat :=
  (if resHitF f then 4 else 0) + (if sqlHitF f then 10 else 0) +
  (if bigEditF f then 6 else 0) + (if f.status == "removed" then 3 else 0)

/-- C7 amended: a `*` in the patch triggers the security-weakening detector
only when it has word characters immediately on both sides (the regex wraps
the alternatives in `\b`); in that case the scanner emits the one
security-weakening signal naming the file inside the file's signal block and
contributes exactly +8 on top of the other per-file detectors. -/
theorem claim_c7_amended (nm st : String) (a d : Option (Option Int))
    (p : String) (hp : adjacentStar p = true) (hne : p ≠ "") :
    secHitF ⟨nm, st, a, d, some p⟩ = true ∧
    fileSignals ⟨nm, st, a, d, some p⟩
      = fileSignalsPre ⟨nm, st, a, d, some p⟩
        ++ [secSig ⟨nm, st, a, d, some p⟩]
        ++ fileSignalsPost ⟨nm, st, a, d, some p⟩ ∧
    fileScore ⟨nm, st, a, d, some p⟩
      = 8 + fileScoreRest ⟨nm, st, a, d, some p⟩ := by
  have hpe : (p == "") = false := beq_eq_false_iff_ne.2 hne
  have hsec : secHitF ⟨nm, st, a, d, some p⟩ = true := by
    unfold adjacentStar at hp
    simp [secHitF, securityHit, hpe, hp]
  refine ⟨hsec, ?_, ?_⟩
  · unfold fileSignals fileSignalsPre fileSignalsPost
    rw [hsec]
    simp [List.append_assoc]
  · unfold fileScore fileScoreRest
    rw [hsec]
    simp only [if_true]
    ring

/-- Witness for the amended C7 on the patch `"a*b"`. -/
theorem claim_c7_amended_witness :
    adjacentStar "a*b" = true ∧ ("a*b" : String) ≠ "" ∧
    (secHitF ⟨"app.py", "modified", none, none, some "a*b"⟩ = true ∧
     fileSignals ⟨"app.py", "modified", none, none, some "a*b"⟩
       = fileSignalsPre ⟨"app.py", "modified", none, none, some "a*b"⟩
         ++ [secSig ⟨"app.py", "modified", none, none, some "a*b"⟩]
         ++ fileSignalsPost ⟨"app.py", "modified", none, none, some "a*b"⟩ ∧
     fileScore ⟨"app.py", "modified", none, none, some "a*b"⟩
       = 8 + fileScoreRest ⟨"app.py", "modified", none, none, some "a*b"⟩) :=
  ⟨by decide, by decide,
   claim_c7_amended "app.py" "modified" none none "a*b" (by decide) (by decide)⟩

/-- C8 counterexample: a present-but-null `changed_files` entry together with
a one-element file list yields `changedFiles = 1` (the list length), not the
0 that §7 prescribes for null numeric fields. -/
theorem claim_c8_counterexample :
    (compute_risk [plainFile] nullCfMeta).changed_files = 1 ∧
    (compute_risk [plainFile] nullCfMeta).changed_files ≠ 0 := by
  decide

/-- C8 amended: missing or null `additions` / `deletions` are treated as 0
(on the metadata, and replacing a null per-file numeric field by 0 leaves the
whole result unchanged); a missing `changedFileCount` defaults to the length
of the file sequence — but a null `changedFileCount` likewise falls back to
the file-sequence length, not to the 0 that the null-numeric rule of §7
prescribes. -/
theorem claim_c8_amended (files : List ChangedFile) (pr : PRMeta)
    (h1 : pr.additions = some none ∨ pr.additions = none)
    (h2 : pr.deletions = some none ∨ pr.deletions = none)
    (h3 : pr.changed_files = some none ∨ pr.changed_files = none)
    (nm st : String) (ad de : Option (Option Int)) (pa : Option String)
    (rest : List ChangedFile) :
    (compute_risk files pr).additions = 0 ∧
    (compute_risk files pr).deletions = 0 ∧
    (compute_risk files pr).changed_files = (files.length : Int) ∧
    compute_risk (⟨nm, st, some none, de, pa⟩ :: rest) pr
      = compute_risk (⟨nm, st, some (some 0), de, pa⟩ :: rest) pr ∧
    compute_risk (⟨nm, st, ad, some none, pa⟩ :: rest) pr
      = compute_risk (⟨nm, st, ad, some (some 0), pa⟩ :: rest) pr := by
  refine ⟨?_, ?_, ?_, rfl, rfl⟩
  · show numOr0 pr.additions = 0
    rcases h1 with h | h <;> rw [h] <;> rfl
  · show numOr0 pr.deletions = 0
    rcases h2 with h | h <;> rw [h] <;> rfl
  · show changedFilesVal pr.changed_files (files.length : Int) = (files.length : Int)
    rcases h3 with h | h <;> rw [h] <;> rfl

/-- Metadata with null additions, missing deletions and null changed-files. -/
def nullMeta : PRMeta := ⟨some none, none, some none⟩

/-- Witness for the amended C8 at concrete null metadata. -/
theorem claim_c8_amended_witness :
    (nullMeta.additions = some none ∨ nullMeta.additions = none) ∧
    (nullMeta.deletions = some none ∨ nullMeta.deletions = none) ∧
    (nullMeta.changed_files = some none ∨ nullMeta.changed_files = none) ∧
    ((compute_risk [plainFile] nullMeta).additions = 0 ∧
     (compute_risk [plainFile] nullMeta).deletions = 0 ∧
     (compute_risk [plainFile] nullMeta).changed_files
       = (([plainFile] : List ChangedFile).length : Int) ∧
     compute_risk (⟨"x.py", "modified", some none, none, none⟩ :: []) nullMeta
       = compute_risk (⟨"x.py", "modified", some (some 0), none, none⟩ :: []) nullMeta ∧
     compute_risk (⟨"x.py", "modified", none, some none, none⟩ :: []) nullMeta
       = compute_risk (⟨"x.py", "modified", none, some (some 0), none⟩ :: []) nullMeta) :=
  ⟨by decide, by decide, by decide,
   claim_c8_amended [plainFile] nullMeta (by decide) (by decide) (by decide)
     "x.py" "modified" none none none []⟩
